import Mathlib

/-!
Verification of the leaderboard dashboard (`src/Gae1.py`).

The program loads a regional mobile-game leaderboard CSV, filters it by
category, slices the top-N rows and renders bar charts, pie charts and
tables.  We embed the data model (a `DataFrame` is a header row plus data
rows of string cells), the file system the loader consults, the loader
`load_data`, the script-level data-source selection, the category filter
`filter_data_by_category`, the chart builders and the column-check gate,
and prove or refute the claims of the specification about them.
-/

namespace Gae1

/-- A tabular dataset: column headers plus rows of string cells, the shape
`pd.read_csv` produces.  The value of row `r` in column `c` is the cell at
the index of `c` in `columns`. -/
structure DataFrame where
  columns : List String
  rows : List (List String)
deriving Repr, DecidableEq

/-- `pd.DataFrame()` — the empty frame the loader degrades to. -/
def DataFrame.empty : DataFrame := ⟨[], []⟩

/-- `df.empty` in pandas: true when any axis has length 0. -/
def DataFrame.isEmpty (df : DataFrame) : Bool :=
  df.rows.isEmpty || df.columns.isEmpty

/-- Value of row `r` in column `c` of `df` (empty string when the column
is absent), modelling access to `df[c]` on one row. -/
def DataFrame.cell (df : DataFrame) (r : List String) (c : String) : String :=
  match df.columns.indexOf? c with
  | Option.some i => r.getD i ""
  | Option.none => ""

/-- The user-visible messages the script emits via `st.error`,
`st.warning` and `st.success`. -/
inductive Msg where
  | error (s : String)
  | warning (s : String)
  | success (s : String)
deriving Repr, DecidableEq

/-- What the file system holds at a path: a CSV that parses to a frame, or
one whose parse raises (e.g. a `ParserError`). -/
inductive FileContent where
  | parsed (df : DataFrame)
  | parseFail (msg : String)
deriving Repr, DecidableEq

/-- The file system the loader consults: a finite map from path to content. -/
structure FS where
  files : List (String × FileContent)
deriving Repr

/-- Look a path up in the file system. -/
def FS.lookup (fs : FS) (p : String) : Option FileContent :=
  (fs.files.find? (fun e => e.1 == p)).map (fun e => e.2)

/-- `os.path.exists`. -/
def os_path_exists (fs : FS) (p : String) : Bool :=
  (fs.lookup p).isSome

/-- `pd.read_csv` on a path: raises (`Except.error`) when the file is
missing or its parse fails. -/
def pd_read_csv (fs : FS) (p : String) : Except String DataFrame :=
  match fs.lookup p with
  | Option.some (FileContent.parsed df) => Except.ok df
  | Option.some (FileContent.parseFail m) => Except.error m
  | Option.none => Except.error "FileNotFoundError"

/-- Python whitespace for `str.strip()`. -/
def py_isspace (c : Char) : Bool :=
  c = ' ' || c = '\t' || c = '\n' || c = '\r' || c = Char.ofNat 11 || c = Char.ofNat 12

/-- `str.strip()`: drop leading and trailing whitespace. -/
def py_strip (s : String) : String :=
  String.mk (List.rdropWhile py_isspace (s.data.dropWhile py_isspace))

/-- `df.columns = df.columns.str.strip()` (Gae1.py line 44). -/
def strip_columns (df : DataFrame) : DataFrame :=
  { df with columns := df.columns.map py_strip }

/-- The directory the default files live in (Gae1.py line 12). -/
def data_directory : String := "./comb/"

/-- The nested region → platform → file-name lookup table
(Gae1.py lines 15–36). -/
def file_mapping : List (String × List (String × String)) :=
  [("United Arab Emirates",
     [("iOS", "uae_iphone_games.csv"), ("Android", "uae_android_games.csv")]),
   ("Saudi Arabia",
     [("iOS", "saudi_iphone_games.csv"), ("Android", "saudi_android_games.csv")]),
   ("Egypt",
     [("iOS", "egypt_iphone_games.csv"), ("Android", "egypt_android_games.csv")]),
   ("Iraq",
     [("iOS", "iraq_iphone_games.csv"), ("Android", "iraq_android_games.csv")]),
   ("Morocco",
     [("iOS", "morocco_iphone_games.csv"), ("Android", "morocco_android_games.csv")])]

/-- Python dict lookup (`d[k]` guarded by `k in d`, or `d.get(k)`). -/
def dict_get {α : Type} (d : List (String × α)) (k : String) : Option α :=
  (d.find? (fun e => e.1 == k)).map (fun e => e.2)

/-- The body of the `try:` block of `load_data` (Gae1.py lines 11–51):
resolves the region/platform to a default file, reads and column-strips
it.  `Except.error` is a raised exception reaching the `except` handler. -/
def load_data_body (fs : FS) (region platform : String) :
    Except String (DataFrame × List Msg) :=
  match dict_get file_mapping region with
  | Option.some platforms =>
    match dict_get platforms platform with
    | Option.some platform_file =>
      let selected_file := data_directory ++ platform_file
      if os_path_exists fs selected_file then
        (pd_read_csv fs selected_file).map (fun df => (strip_columns df, []))
      else
        Except.ok (DataFrame.empty,
          [Msg.error ("File not found: " ++ selected_file)])
    | Option.none =>
      Except.ok (DataFrame.empty,
        [Msg.error ("No files found for " ++ region ++ " (" ++ platform ++ ").")])
  | Option.none =>
    Except.ok (DataFrame.empty,
      [Msg.error ("No files found for " ++ region ++ " (" ++ platform ++ ").")])

/-- `load_data` (Gae1.py lines 9–55): the `try/except` catches every raise
of the body and degrades it to an empty frame plus an error message. -/
def load_data (fs : FS) (region platform : String) : DataFrame × List Msg :=
  match load_data_body fs region platform with
  | Except.ok r => r
  | Except.error e =>
    (DataFrame.empty, [Msg.error ("Error loading data: " ++ e)])

/-- `pd.read_csv(uploaded_file)` (Gae1.py line 73): unguarded, so a parse
failure raises. -/
def pd_read_csv_upload (c : FileContent) : Except String DataFrame :=
  match c with
  | FileContent.parsed df => Except.ok df
  | FileContent.parseFail m => Except.error m

/-- The script-level data-source selection (Gae1.py lines 67–83): load the
default frame, then prefer the uploaded file when one is present, unless
the user picked the default source (`useDefault`) and the default frame is
non-empty; with no upload fall back to the default or warn.  The result is
the chosen `data_df` plus all messages emitted; `Except.error` is an
exception escaping the selection step. -/
def resolve_data (fs : FS) (region platform : String)
    (uploaded : Option FileContent) (useDefault : Bool) :
    Except String (DataFrame × List Msg) :=
  let ld := load_data fs region platform
  let default_data_df := ld.1
  match uploaded with
  | Option.some content =>
    (pd_read_csv_upload content).map (fun updf =>
      let msgs := ld.2 ++ [Msg.success "CSV file successfully uploaded."]
      if useDefault && !default_data_df.isEmpty then (default_data_df, msgs)
      else (updf, msgs))
  | Option.none =>
    if !default_data_df.isEmpty then Except.ok (default_data_df, ld.2)
    else
      Except.ok (DataFrame.empty,
        ld.2 ++ [Msg.warning ("Default file not found for " ++ platform ++
          " in " ++ region ++ ". Please upload a CSV file.")])

/-- The rendered artifacts: bar charts over the taken rows, pie charts over
rating counts (with the `autopct` percentage-label format), and data
tables (`st.dataframe`). -/
inductive Chart where
  | bar (title xCol yCol : String) (rows : List (List String))
  | pie (title autopct : String) (slices : List (String × Nat))
  | table (rows : List (List String))
deriving Repr, DecidableEq

/-- `df.head(n)` — the first `n` rows. -/
def DataFrame.head (df : DataFrame) (n : Nat) : DataFrame :=
  { df with rows := df.rows.take n }

/-- `create_bar_chart` (Gae1.py lines 104–121): warn and skip when the
frame is empty, otherwise plot the first `num_games` rows. -/
def create_bar_chart (df : DataFrame) (title x_col y_col : String)
    (num_games : Nat) : List Msg × Option Chart :=
  if df.isEmpty then
    ([Msg.warning ("No data available for " ++ title)], Option.none)
  else
    ([], Option.some (Chart.bar title x_col y_col (df.head num_games).rows))

/-- `filter_data_by_category` (Gae1.py lines 124–125):
`df[df["Category"].isin(categories)]`. -/
def filter_data_by_category (df : DataFrame) (categories : List String) :
    DataFrame :=
  { df with rows := df.rows.filter (fun r => categories.contains (df.cell r "Category")) }

/-- `Series.value_counts()`: one `(value, count)` pair per distinct value,
sorted by count descending (stable). -/
def value_counts (vals : List String) : List (String × Nat) :=
  List.insertionSort (fun a b => b.2 ≤ a.2)
    (vals.dedup.map (fun v => (v, vals.count v)))

/-- The `Rating` column of a frame. -/
def DataFrame.ratings (df : DataFrame) : List String :=
  df.rows.map (fun r => df.cell r "Rating")

/-- `create_pie_chart` (Gae1.py lines 175–191): warn and skip when the
frame is empty, otherwise chart the rating value counts with `%1.1f%%`
percentage labels. -/
def create_pie_chart (df : DataFrame) (title : String) :
    List Msg × Option Chart :=
  if df.isEmpty then
    ([Msg.warning ("No data available for " ++ title)], Option.none)
  else
    ([], Option.some (Chart.pie title "%1.1f%%" (value_counts df.ratings)))

/-- The four required columns (Gae1.py line 94). -/
def required_columns : List String := ["Category", "Game Name", "Rating", "Position"]

/-- Comma-join, as in the message at Gae1.py line 96. -/
def join_comma : List String → String
  | [] => ""
  | [c] => c
  | c :: rest => c ++ ", " ++ join_comma rest

/-- The category label sets (Gae1.py lines 131–133). -/
def free_categories : List String := ["Top Free Games", "Free", "Top Free"]

/-- Paid label set (Gae1.py line 132). -/
def paid_categories : List String := ["Top Paid Games", "Paid", "Top Paid"]

/-- Grossing label set (Gae1.py line 133). -/
def grossing_categories : List String := ["Top Grossing Games", "Grossing", "Top Grossing"]

/-- `streamlit.slider(label, lo, hi, default)` with the choice of the user
clamped into the interval `[lo, hi]` (the widget only offers values in
that range; the initial position is the default argument). -/
def st_slider (lo hi choice : Nat) : Nat := max lo (min hi choice)

/-- The `num_games` selector (Gae1.py lines 99–101):
`st.slider(label, 5, min(25, max_games), min(10, max_games))` where
`max_games = len(data_df)`. -/
def num_games_selected (row_count choice : Nat) : Nat :=
  st_slider 5 (min 25 row_count) choice

/-- The default position of the `num_games` slider (Gae1.py line 101). -/
def num_games_default (row_count : Nat) : Nat := min 10 row_count

/-- The distinct `Category` values in order of appearance (Gae1.py line
161, `data_df["Category"].unique()`). -/
def category_options (df : DataFrame) : List String :=
  (df.rows.map (fun r => df.cell r "Category")).eraseDups

/-- The main body (Gae1.py lines 93–196): check the required columns — on
failure emit a single error and render nothing — otherwise render the
three per-category bar charts, the rating bar chart, the detailed tables
and the per-category bar and pie charts.  `sel_cat` is the category picked
in the selectbox and `num_games` the slider value. -/
def render_main (df : DataFrame) (num_games : Nat) (show_detailed_view : Bool)
    (sel_cat : String) : List Msg × List Chart :=
  if !(required_columns.all (fun c => df.columns.contains c)) then
    ([Msg.error ("CSV file does not contain required columns: " ++
        join_comma required_columns ++ ".")], [])
  else
    let free_data := filter_data_by_category df free_categories
    let b1 := create_bar_chart free_data "Top Free Apps" "Position" "Game Name" num_games
    let paid_data := filter_data_by_category df paid_categories
    let b2 := create_bar_chart paid_data "Top Paid Apps" "Position" "Game Name" num_games
    let grossing_data := filter_data_by_category df grossing_categories
    let b3 := create_bar_chart grossing_data "Top Grossing Apps" "Position" "Game Name" num_games
    let b4 := create_bar_chart df "Game Name by Rating" "Rating" "Game Name" num_games
    let detail := if show_detailed_view then [Chart.table df.rows] else []
    let tail :=
      if category_options df ≠ [] then
        let filtered_category_df :=
          { df with rows := df.rows.filter (fun r => df.cell r "Category" == sel_cat) }
        let detail2 :=
          if show_detailed_view then
            [Chart.table (filtered_category_df.head num_games).rows]
          else []
        let b5 := create_bar_chart filtered_category_df sel_cat "Position" "Game Name" num_games
        let p1 := create_pie_chart (filtered_category_df.head num_games)
          (sel_cat ++ " Rating Distribution")
        (b5.1 ++ p1.1, detail2 ++ b5.2.toList ++ p1.2.toList)
      else ([], [])
    (b1.1 ++ b2.1 ++ b3.1 ++ b4.1 ++ tail.1,
     b1.2.toList ++ b2.2.toList ++ b3.2.toList ++ b4.2.toList ++ detail ++ tail.2)

/-- Modelled from the spec: "show one error listing missing columns" — the
message the specification describes, naming only the columns actually
missing from the frame.  Used to compare with the message the code emits. -/
def missing_columns_message (df : DataFrame) : String :=
  "CSV file does not contain required columns: " ++
    join_comma (required_columns.filter (fun c => !df.columns.contains c)) ++ "."

/-- The three-row table of the filter example in the specification. -/
def dfFPG : DataFrame :=
  ⟨["Category", "Game Name", "Rating", "Position"],
   [["Free", "Game A", "4.5", "1"],
    ["Paid", "Game B", "4.0", "2"],
    ["Grossing", "Game C", "3.5", "3"]]⟩

/-- A 20-row table for the top-N example. -/
def df20 : DataFrame :=
  ⟨["Category", "Game Name", "Rating", "Position"],
   (List.range 20).map (fun i => ["Free", "G", "4", toString (i + 1)])⟩

/-- A parseable upload whose first column name carries a leading blank. -/
def df_untrimmed : DataFrame :=
  ⟨[" Category", "Game Name", "Rating", "Position"], [["Free", "Game A", "4.5", "1"]]⟩

/-- A file system where the default Egypt iOS file parses to
`df_untrimmed`. -/
def fs_egypt : FS :=
  ⟨[("./comb/egypt_iphone_games.csv", FileContent.parsed df_untrimmed)]⟩

/-- A file system where the default Egypt iOS file exists but fails to
parse. -/
def fs_badcsv : FS :=
  ⟨[("./comb/egypt_iphone_games.csv", FileContent.parseFail "ParserError")]⟩

/-- The platform row of the mapping for Egypt. -/
def egypt_platforms : List (String × String) :=
  [("iOS", "egypt_iphone_games.csv"), ("Android", "egypt_android_games.csv")]

/-- A table missing only the `Category` column. -/
def df_missing_cat : DataFrame :=
  ⟨["Game Name", "Rating", "Position"], [["Game A", "4.5", "1"]]⟩

/-- Filtering twice with the same predicate equals filtering once. -/
theorem filter_twice {α : Type} (p : α → Bool) (l : List α) :
    (l.filter p).filter p = l.filter p := by
  rw [List.filter_filter]
  apply List.filter_congr
  intro a _
  simp

/-- A right-strip applied after a left-strip leaves no leading elements
satisfying the predicate, so a further left-strip is the identity. -/
theorem dropWhile_strip_eq {α : Type} (p : α → Bool) (l : List α) :
    List.dropWhile p (List.rdropWhile p (List.dropWhile p l)) =
      List.rdropWhile p (List.dropWhile p l) := by
  obtain ⟨t, ht⟩ := List.rdropWhile_prefix p (List.dropWhile p l)
  cases hrd : List.rdropWhile p (List.dropWhile p l) with
  | nil => simp
  | cons b rd =>
    rw [hrd] at ht
    cases hA : List.dropWhile p l with
    | nil => rw [hA] at ht; simp at ht
    | cons a A =>
      rw [hA] at ht
      have hb : b = a := by
        have h := congrArg List.head? ht
        simpa using h
      have hpa : p a = false := by
        have h0 : 0 < (List.dropWhile p l).length := by rw [hA]; simp
        have h1 := List.dropWhile_get_zero_not p l h0
        have h2 : (List.dropWhile p l).get ⟨0, h0⟩ = a := by
          simp [hA]
        rw [h2] at h1
        simpa using h1
      subst hb
      rw [List.dropWhile_cons_of_neg (by simp [hpa])]

/-- `str.strip()` is idempotent: a stripped string is its own strip. -/
theorem py_strip_idem (s : String) : py_strip (py_strip s) = py_strip s := by
  show String.mk (List.rdropWhile py_isspace
    (List.dropWhile py_isspace (List.rdropWhile py_isspace (s.data.dropWhile py_isspace)))) = _
  rw [dropWhile_strip_eq, List.rdropWhile_idempotent]
  rfl

/-- C1 counterexample: with an uploaded file whose parse fails, the
unguarded `pd.read_csv(uploaded_file)` raises and the exception escapes
the data-selection step — the load does not degrade to an empty table plus
an error message. -/
theorem uploaded_parse_failure_raises :
    resolve_data ⟨[]⟩ "Egypt" "iOS"
      (Option.some (FileContent.parseFail "ParserError")) false =
      Except.error "ParserError" := by rfl

/-- C1 (amended): for a load resolved through the region/platform mapping,
a parse failure of the mapped file degrades to an empty table plus a
visible error message inside `load_data`, and a request without an
uploaded file never lets an exception escape the selection step. -/
theorem load_data_parse_failure_degrades (fs : FS) (region platform pf m : String)
    (platforms : List (String × String)) (useDefault : Bool)
    (h1 : dict_get file_mapping region = Option.some platforms)
    (h2 : dict_get platforms platform = Option.some pf)
    (h3 : fs.lookup (data_directory ++ pf) = Option.some (FileContent.parseFail m)) :
    load_data fs region platform =
      (DataFrame.empty, [Msg.error ("Error loading data: " ++ m)]) ∧
    (resolve_data fs region platform Option.none useDefault).isOk = true := by
  have hld : load_data fs region platform =
      (DataFrame.empty, [Msg.error ("Error loading data: " ++ m)]) := by
    simp [load_data, load_data_body, os_path_exists, h1, h2, h3, pd_read_csv, Except.map]
  refine ⟨hld, ?_⟩
  simp [resolve_data, hld, DataFrame.isEmpty, DataFrame.empty, Except.isOk, Except.toBool]

/-- Witness for C1 (amended) at the Egypt iOS file that fails to parse. -/
theorem load_data_parse_failure_degrades_witness :
    load_data fs_badcsv "Egypt" "iOS" =
      (DataFrame.empty, [Msg.error "Error loading data: ParserError"]) ∧
    (resolve_data fs_badcsv "Egypt" "iOS" Option.none false).isOk = true :=
  load_data_parse_failure_degrades fs_badcsv "Egypt" "iOS" "egypt_iphone_games.csv"
    "ParserError" egypt_platforms false rfl rfl rfl

/-- C2 counterexample: an uploaded table keeps its column names exactly as
parsed — the surrounding whitespace in a column name survives into the
selected dataset. -/
theorem uploaded_columns_not_stripped :
    resolve_data ⟨[]⟩ "Egypt" "iOS" (Option.some (FileContent.parsed df_untrimmed)) false =
      Except.ok (df_untrimmed,
        [Msg.error "File not found: ./comb/egypt_iphone_games.csv",
         Msg.success "CSV file successfully uploaded."]) ∧
    " Category" ∈ df_untrimmed.columns ∧
    py_strip " Category" ≠ " Category" := by
  refine ⟨by rfl, by decide, by decide⟩

/-- C2 (amended): for every dataset resolved from the region/platform
mapping that parses successfully, the column names of the resulting table
have been trimmed of surrounding whitespace after parsing (each output
column is a fixed point of strip); uploaded tables are used as parsed. -/
theorem load_data_columns_stripped (fs : FS) (region platform pf : String)
    (platforms : List (String × String)) (df0 : DataFrame)
    (h1 : dict_get file_mapping region = Option.some platforms)
    (h2 : dict_get platforms platform = Option.some pf)
    (h3 : fs.lookup (data_directory ++ pf) = Option.some (FileContent.parsed df0)) :
    load_data fs region platform = (strip_columns df0, []) ∧
    (load_data fs region platform).1.columns = df0.columns.map py_strip ∧
    ∀ c ∈ (load_data fs region platform).1.columns, py_strip c = c := by
  have hld : load_data fs region platform = (strip_columns df0, []) := by
    simp [load_data, load_data_body, os_path_exists, h1, h2, h3, pd_read_csv, Except.map]
  refine ⟨hld, by rw [hld]; rfl, ?_⟩
  rw [hld]
  intro c hc
  simp only [strip_columns, List.mem_map] at hc
  obtain ⟨c0, _, rfl⟩ := hc
  exact py_strip_idem c0

/-- Witness for C2 (amended): the Egypt iOS default file parses to a table
with a blank-prefixed column and the loaded table is its strip. -/
theorem load_data_columns_stripped_witness :
    load_data fs_egypt "Egypt" "iOS" = (strip_columns df_untrimmed, []) ∧
    py_strip "Category" = "Category" :=
  ⟨(load_data_columns_stripped fs_egypt "Egypt" "iOS" "egypt_iphone_games.csv"
      egypt_platforms df_untrimmed rfl rfl rfl).1,
   (load_data_columns_stripped fs_egypt "Egypt" "iOS" "egypt_iphone_games.csv"
      egypt_platforms df_untrimmed rfl rfl rfl).2.2 "Category" (by decide)⟩

/-- C3: `filter_data_by_category` returns exactly the rows whose Category
value is a member of the label set — every returned row is an input row
with a matching label, every matching input row is returned, the output is
a subsequence of the input (original order preserved), and when no row
matches the result is the empty table, not an error. -/
theorem filter_by_category_exact (df : DataFrame) (categories : List String) :
    (∀ r ∈ (filter_data_by_category df categories).rows,
       r ∈ df.rows ∧ df.cell r "Category" ∈ categories) ∧
    (∀ r ∈ df.rows, df.cell r "Category" ∈ categories →
       r ∈ (filter_data_by_category df categories).rows) ∧
    List.Sublist (filter_data_by_category df categories).rows df.rows ∧
    ((∀ r ∈ df.rows, df.cell r "Category" ∉ categories) →
       (filter_data_by_category df categories).rows = []) := by
  refine ⟨?_, ?_, List.filter_sublist _, ?_⟩
  · intro r hr
    simp only [filter_data_by_category, List.mem_filter] at hr
    exact ⟨hr.1, List.elem_iff.mp hr.2⟩
  · intro r hr hc
    simp only [filter_data_by_category, List.mem_filter]
    exact ⟨hr, List.elem_iff.mpr hc⟩
  · intro hnone
    simp only [filter_data_by_category]
    rw [List.filter_eq_nil_iff]
    intro r hr
    simpa using fun hc => hnone r hr (List.elem_iff.mp hc)

/-- Witness for C3 on the Free/Paid/Grossing example table. -/
theorem filter_by_category_exact_witness :
    ["Free", "Game A", "4.5", "1"] ∈ (filter_data_by_category dfFPG ["Free"]).rows ∧
    (filter_data_by_category dfFPG ["Arcade"]).rows = [] :=
  ⟨(filter_by_category_exact dfFPG ["Free"]).2.1 ["Free", "Game A", "4.5", "1"]
      (by decide) (by decide),
   (filter_by_category_exact dfFPG ["Arcade"]).2.2.2 (by decide)⟩

/-- C4: the top-N selection (`df.head(n)` as used by `create_bar_chart`)
returns the first `n` rows of the table unmodified in their existing
order — each position below `n` is unchanged and nothing is sorted. -/
theorem take_top_first_rows (df : DataFrame) (n : Nat) :
    (df.head n).rows = df.rows.take n ∧
    (df.head n).rows.length = min n df.rows.length ∧
    (∀ i, i < n → (df.head n).rows[i]? = df.rows[i]?) ∧
    (∀ title x_col y_col, df.isEmpty = false →
       create_bar_chart df title x_col y_col n =
         ([], Option.some (Chart.bar title x_col y_col (df.rows.take n)))) := by
  refine ⟨rfl, List.length_take n df.rows, fun i hi => List.getElem?_take_of_lt hi, ?_⟩
  intro title x_col y_col h
  simp [create_bar_chart, h, DataFrame.head]

/-- Witness for C4 on a 20-row table with n = 10. -/
theorem take_top_first_rows_witness :
    (df20.head 10).rows[3]? = df20.rows[3]? ∧
    create_bar_chart df20 "Top Free Apps" "Position" "Game Name" 10 =
      ([], Option.some (Chart.bar "Top Free Apps" "Position" "Game Name"
        (df20.rows.take 10))) :=
  ⟨(take_top_first_rows df20 10).2.2.1 3 (by decide),
   (take_top_first_rows df20 10).2.2.2 "Top Free Apps" "Position" "Game Name" (by decide)⟩

/-- C5 (amended): when the loaded table lacks any of the four required
columns, all rendering is skipped and a single error message listing the
four required columns (not only the missing ones) is shown; no chart or
table is produced from an invalid table. -/
theorem missing_columns_skips_rendering (df : DataFrame) (num_games : Nat)
    (show_detailed_view : Bool) (sel_cat : String)
    (h : required_columns.all (fun c => df.columns.contains c) = false) :
    render_main df num_games show_detailed_view sel_cat =
      ([Msg.error ("CSV file does not contain required columns: " ++
          "Category, Game Name, Rating, Position.")], []) := by
  unfold render_main
  rw [h]
  rfl

/-- Witness for C5 (amended) on a one-column table. -/
theorem missing_columns_skips_rendering_witness :
    render_main ⟨["Rating"], []⟩ 5 true "Free" =
      ([Msg.error ("CSV file does not contain required columns: " ++
          "Category, Game Name, Rating, Position.")], []) :=
  missing_columns_skips_rendering ⟨["Rating"], []⟩ 5 true "Free" (by decide)

/-- C5 counterexample: on a table missing only `Category`, the emitted
error names all four required columns, not the missing columns — the
message the specification describes (listing only `Category`) is not
produced. -/
theorem error_lists_required_not_missing :
    (render_main df_missing_cat 5 true "Free").1 =
      [Msg.error ("CSV file does not contain required columns: " ++
         "Category, Game Name, Rating, Position.")] ∧
    (render_main df_missing_cat 5 true "Free").2 = [] ∧
    missing_columns_message df_missing_cat =
      "CSV file does not contain required columns: Category." ∧
    Msg.error (missing_columns_message df_missing_cat) ∉
      (render_main df_missing_cat 5 true "Free").1 := by
  refine ⟨by rfl, by rfl, by rfl, by decide⟩

/-- C6: for a (region, platform) pair with no mapped file, no file for the
platform, or a mapped file that does not exist, and with no uploaded file,
the resolved dataset is the empty table, an error and then a warning are
recorded, and no exception escapes. -/
theorem load_missing_file_warns (fs : FS) (region platform : String) (useDefault : Bool)
    (h : dict_get file_mapping region = Option.none ∨
      (∃ platforms, dict_get file_mapping region = Option.some platforms ∧
        dict_get platforms platform = Option.none) ∨
      (∃ platforms pf, dict_get file_mapping region = Option.some platforms ∧
        dict_get platforms platform = Option.some pf ∧
        os_path_exists fs (data_directory ++ pf) = false)) :
    ∃ e, resolve_data fs region platform Option.none useDefault =
      Except.ok (DataFrame.empty,
        [Msg.error e,
         Msg.warning ("Default file not found for " ++ platform ++ " in " ++ region ++
           ". Please upload a CSV file.")]) := by
  have hld : ∃ e, load_data fs region platform = (DataFrame.empty, [Msg.error e]) := by
    rcases h with h1 | ⟨ps, h1, h2⟩ | ⟨ps, pf, h1, h2, h3⟩
    · exact ⟨"No files found for " ++ region ++ " (" ++ platform ++ ").",
        by simp [load_data, load_data_body, h1]⟩
    · exact ⟨"No files found for " ++ region ++ " (" ++ platform ++ ").",
        by simp [load_data, load_data_body, h1, h2]⟩
    · exact ⟨"File not found: " ++ (data_directory ++ pf),
        by simp [load_data, load_data_body, h1, h2, h3]⟩
  obtain ⟨e, he⟩ := hld
  refine ⟨e, ?_⟩
  simp [resolve_data, he, DataFrame.isEmpty, DataFrame.empty]

/-- Witness for C6: Egypt iOS on an empty file system. -/
theorem load_missing_file_warns_witness :
    ∃ e, resolve_data ⟨[]⟩ "Egypt" "iOS" Option.none false =
      Except.ok (DataFrame.empty,
        [Msg.error e,
         Msg.warning ("Default file not found for iOS in Egypt" ++
           ". Please upload a CSV file.")]) :=
  load_missing_file_warns ⟨[]⟩ "Egypt" "iOS" false
    (Or.inr (Or.inr ⟨egypt_platforms, "egypt_iphone_games.csv", rfl, rfl, rfl⟩))

/-- C7: rendering a pie chart on an empty table yields a warning, no chart
artifact and no exception; on a non-empty table it yields the chart whose
slices count the occurrences of each `Rating` value, labelled with the
`%1.1f%%` percentage format — each slice carries the exact occurrence
count of its value and every occurring value has its slice. -/
theorem pie_chart_empty_warns_counts (df : DataFrame) (title : String) :
    (df.isEmpty = true →
      create_pie_chart df title =
        ([Msg.warning ("No data available for " ++ title)], Option.none)) ∧
    (df.isEmpty = false →
      create_pie_chart df title =
        ([], Option.some (Chart.pie title "%1.1f%%" (value_counts df.ratings)))) ∧
    (∀ v c, (v, c) ∈ value_counts df.ratings → c = df.ratings.count v) ∧
    (∀ v, v ∈ df.ratings → (v, df.ratings.count v) ∈ value_counts df.ratings) := by
  have hp := List.perm_insertionSort (fun a b : String × Nat => b.2 ≤ a.2)
    (df.ratings.dedup.map (fun v => (v, df.ratings.count v)))
  refine ⟨fun h => by simp [create_pie_chart, h],
    fun h => by simp [create_pie_chart, h], ?_, ?_⟩
  · intro v c hv
    have hv2 : (v, c) ∈ df.ratings.dedup.map (fun v => (v, df.ratings.count v)) := by
      rw [value_counts] at hv
      exact hp.mem_iff.mp hv
    simp only [List.mem_map] at hv2
    obtain ⟨w, _, hw⟩ := hv2
    rw [Prod.mk.injEq] at hw
    obtain ⟨rfl, rfl⟩ := hw
    rfl
  · intro v hv
    rw [value_counts]
    exact hp.mem_iff.mpr (List.mem_map.mpr ⟨v, List.mem_dedup.mpr hv, rfl⟩)

/-- Witness for C7 on the empty frame and on the example table. -/
theorem pie_chart_empty_warns_counts_witness :
    create_pie_chart DataFrame.empty "t" =
      ([Msg.warning "No data available for t"], Option.none) ∧
    create_pie_chart dfFPG "t" =
      ([], Option.some (Chart.pie "t" "%1.1f%%" (value_counts dfFPG.ratings))) ∧
    ("4.5", dfFPG.ratings.count "4.5") ∈ value_counts dfFPG.ratings :=
  ⟨(pie_chart_empty_warns_counts DataFrame.empty "t").1 (by rfl),
   (pie_chart_empty_warns_counts dfFPG "t").2.1 (by rfl),
   (pie_chart_empty_warns_counts dfFPG "t").2.2.2 "4.5" (by decide)⟩

/-- C8: the row-count selector offers the range from 5 to
min(25, row_count) — every selected value lands in it — and defaults to
min(10, row_count). -/
theorem num_games_range (row_count choice : Nat) (h : 5 ≤ row_count) :
    5 ≤ num_games_selected row_count choice ∧
    num_games_selected row_count choice ≤ min 25 row_count ∧
    num_games_selected row_count (num_games_default row_count) =
      num_games_default row_count := by
  unfold num_games_selected st_slider num_games_default
  omega

/-- Witness for C8 at a 20-row table and choice 12. -/
theorem num_games_range_witness :
    5 ≤ num_games_selected 20 12 ∧
    num_games_selected 20 12 ≤ min 25 20 ∧
    num_games_selected 20 (num_games_default 20) = num_games_default 20 :=
  num_games_range 20 12 (by decide)

/-- C9: with an uploaded file supplied and the default source selected,
the uploaded table is still used when the default table is empty; the
default table replaces the uploaded one exactly when it is non-empty. -/
theorem uploaded_kept_when_default_empty (fs : FS) (region platform : String)
    (updf : DataFrame) :
    ((load_data fs region platform).1.isEmpty = true →
      resolve_data fs region platform (Option.some (FileContent.parsed updf)) true =
        Except.ok (updf, (load_data fs region platform).2 ++
          [Msg.success "CSV file successfully uploaded."])) ∧
    ((load_data fs region platform).1.isEmpty = false →
      resolve_data fs region platform (Option.some (FileContent.parsed updf)) true =
        Except.ok ((load_data fs region platform).1, (load_data fs region platform).2 ++
          [Msg.success "CSV file successfully uploaded."])) := by
  constructor <;> intro h <;> simp [resolve_data, pd_read_csv_upload, h, Except.map]

/-- Witness for C9: the default Egypt iOS table is empty on an empty file
system, so the uploaded example table is the dataset. -/
theorem uploaded_kept_when_default_empty_witness :
    resolve_data ⟨[]⟩ "Egypt" "iOS" (Option.some (FileContent.parsed dfFPG)) true =
      Except.ok (dfFPG, (load_data ⟨[]⟩ "Egypt" "iOS").2 ++
        [Msg.success "CSV file successfully uploaded."]) :=
  (uploaded_kept_when_default_empty ⟨[]⟩ "Egypt" "iOS" dfFPG).1 (by rfl)

/-- C10: `filter_data_by_category` is idempotent — applying it twice with
the same label set equals applying it once — and its output rows form a
subsequence of the input rows (every output row appears in the input, in
the same relative order). -/
theorem filter_by_category_idem_sub (df : DataFrame) (categories : List String) :
    filter_data_by_category (filter_data_by_category df categories) categories =
      filter_data_by_category df categories ∧
    List.Sublist (filter_data_by_category df categories).rows df.rows := by
  refine ⟨?_, List.filter_sublist _⟩
  unfold filter_data_by_category
  congr 1
  exact filter_twice _ _

end Gae1
